import Mathlib

/-!
Shallow embedding of the cc1101 crate (src/lib.rs, src/config.rs, src/ioctl.rs).

Floating-point values of the source (`f32`) are modelled as rationals (`ℚ`);
`as u32`/`as u8` casts of nonnegative values are modelled by `Int.floor`/`Int.toNat`
(truncation toward zero of a nonnegative value) with saturation where the source
casts a float to `u8`. Driver interaction (file handles, ioctls, reads) is
modelled by an explicit request trace and a small oracle supplying the driver's
live RX config and the outcomes of successive `read` calls.
-/

attribute [local semireducible] Rat.add Rat.mul Rat.sub Rat.inv Rat.ofScientific Nat.gcd

/-- Radio modulation mode (config.rs `Modulation`). -/
inductive Modulation
  | FSK2
  | GFSK
  | OOK
  | FSK4
  | MSK
deriving DecidableEq, Repr

/-- Carrier sense setting (config.rs `CarrierSense`). -/
inductive CarrierSense
  | Relative (v : Int)
  | Absolute (v : Int)
deriving DecidableEq, Repr

/-- Internal carrier sense mode (config.rs `CarrierSenseMode`). -/
inductive CarrierSenseMode
  | Disabled
  | Relative
  | Absolute
deriving DecidableEq, Repr

/-- Errors caused by device configuration (lib.rs `ConfigError`). -/
inductive ConfigError
  | InvalidFrequency
  | InvalidBandwidth
  | InvalidCarrierSense
  | InvalidTXPower
  | InvalidBaudRate
  | InvalidDeviation
  | InvalidSyncWord
  | InvalidMaxLNAGain
  | InvalidMaxDVGAGain
  | InvalidMagnTarget
deriving DecidableEq, Repr

/-- Errors encountered during communication with the driver (lib.rs `DeviceError`). -/
inductive DeviceError
  | NoDevice
  | FileHandleClone
  | InvalidIOCTL
  | VersionMismatch
  | NoRXConfig
  | Busy
  | Copy
  | InvalidConfig
  | OutOfMemory
  | BufferEmpty
  | PacketSize
  | Unknown
deriving DecidableEq, Repr

/-- Generic error type (lib.rs `CC1101Error`). -/
inductive CC1101Error
  | Device (e : DeviceError)
  | Config (e : ConfigError)
deriving DecidableEq, Repr

instance {ε α : Type} [DecidableEq ε] [DecidableEq α] : DecidableEq (Except ε α) := fun x y =>
  match x, y with
  | Except.ok a, Except.ok b =>
      if h : a = b then isTrue (by rw [h]) else isFalse (fun hc => h (Except.ok.inj hc))
  | Except.error a, Except.error b =>
      if h : a = b then isTrue (by rw [h]) else isFalse (fun hc => h (Except.error.inj hc))
  | Except.ok _, Except.error _ => isFalse (fun hc => Except.noConfusion hc)
  | Except.error _, Except.ok _ => isFalse (fun hc => Except.noConfusion hc)

/-- Configuration values shared between transmit and receive (config.rs `CommonConfig`).
The fields hold the encoded register values, exactly as in the source struct. -/
structure CommonConfig where
  frequency : Nat
  modulation : Modulation
  baud_rate_mantissa : Nat
  baud_rate_exponent : Nat
  deviation_mantissa : Nat
  deviation_exponent : Nat
  sync_word : Nat
deriving DecidableEq, Repr

/-- Default common configuration (config.rs `impl Default for CommonConfig`). -/
def CommonConfig.default : CommonConfig where
  frequency := 0x10B071
  modulation := Modulation.OOK
  baud_rate_mantissa := 0x43
  baud_rate_exponent := 0x05
  deviation_mantissa := 0x07
  deviation_exponent := 0x04
  sync_word := 0x0

/-- Configuration values specific to receive (config.rs `RXConfig`). -/
structure RXConfig where
  common : CommonConfig
  bandwidth_mantissa : Nat
  bandwidth_exponent : Nat
  max_lna_gain : Nat
  max_dvga_gain : Nat
  magn_target : Nat
  carrier_sense_mode : CarrierSenseMode
  carrier_sense : Int
  packet_length : Nat
deriving DecidableEq, Repr

/-- Default receive configuration (config.rs `impl Default for RXConfig`). -/
def RXConfig.default : RXConfig where
  common := CommonConfig.default
  bandwidth_mantissa := 0x00
  bandwidth_exponent := 0x02
  max_lna_gain := 0
  max_dvga_gain := 0
  magn_target := 33
  carrier_sense_mode := CarrierSenseMode.Relative
  carrier_sense := 6
  packet_length := 1024

/-- Configuration values specific to transmit (config.rs `TXConfig`). -/
structure TXConfig where
  common : CommonConfig
  tx_power : Nat
deriving DecidableEq, Repr

/-- Default transmit configuration (config.rs `impl Default for TXConfig`, derived). -/
def TXConfig.default : TXConfig where
  common := CommonConfig.default
  tx_power := 0

/-- Crystal frequency in MHz (config.rs `XTAL_FREQ`). -/
def XTAL_FREQ : ℚ := 26

/-- Rounding helper (config.rs `round(value, precision)`): round to `precision`
decimal places. The source rounds the scaled value half away from zero; all
values the crate rounds are positive, where that agrees with `round`. -/
def roundTo (value : ℚ) (precision : ℕ) : ℚ :=
  (round (value * 10 ^ precision) : ℤ) / (10 : ℚ) ^ precision

/-- Convert a frequency in MHz to a configuration value
(config.rs `CommonConfig::frequency_to_config`). The `as u32` cast of the
nonnegative product is truncation, i.e. the floor. -/
def CommonConfig.frequency_to_config (frequency : ℚ) : Except CC1101Error Nat :=
  if ¬ ((299.99976 ≤ frequency ∧ frequency ≤ 347.99994)
      ∨ (386.99994 ≤ frequency ∧ frequency ≤ 463.9998)
      ∨ (778.9999 ≤ frequency ∧ frequency ≤ 928.000000)) then
    Except.error (CC1101Error.Config ConfigError.InvalidFrequency)
  else
    Except.ok (Int.toNat ⌊frequency * 65536 / XTAL_FREQ⌋)

/-- Convert a configuration value to a frequency in MHz
(config.rs `CommonConfig::config_to_frequency`). -/
def CommonConfig.config_to_frequency (config : Nat) : ℚ :=
  (XTAL_FREQ / 2 ^ 16) * config

/-- Floor of the base-2 logarithm of a natural number by repeated halving,
with explicit fuel so that it is structurally recursive. -/
def floorLog2Fuel : Nat → Nat → Nat
  | 0, _ => 0
  | fuel + 1, n => if n ≤ 1 then 0 else floorLog2Fuel fuel (n / 2) + 1

/-- Floor of the base-2 logarithm of a rational `q ≥ 1` (the only arguments
the guarded call site below produces): the floor-log₂ of `⌊q⌋`. -/
def ratFloorLog2 (q : ℚ) : Nat :=
  floorLog2Fuel (Int.toNat ⌊q⌋) (Int.toNat ⌊q⌋)

/-- Convert a baud rate in kBaud to a configuration value
(config.rs `CommonConfig::baud_rate_to_config`). The source takes
`.log(2.0).floor()` of the positive quotient (always ≥ 1 for in-range rates),
modelled by `ratFloorLog2`; the `as u8` casts of the float results saturate
into `[0, 255]`. -/
def CommonConfig.baud_rate_to_config (modulation : Modulation) (baud_rate : ℚ) :
    Except CC1101Error (Nat × Nat) :=
  let valid_baud_rate : Bool :=
    match modulation with
    | Modulation.GFSK | Modulation.OOK => decide (0.599742 ≤ baud_rate ∧ baud_rate ≤ 249.939)
    | Modulation.FSK2 => decide (0.599742 ≤ baud_rate ∧ baud_rate ≤ 500.0)
    | Modulation.FSK4 => decide (0.599742 ≤ baud_rate ∧ baud_rate ≤ 299.927)
    | Modulation.MSK => decide (25.9857 ≤ baud_rate ∧ baud_rate ≤ 499.878)
  if !valid_baud_rate then
    Except.error (CC1101Error.Config ConfigError.InvalidBaudRate)
  else
    let xtal_freq : ℚ := XTAL_FREQ * 1000000
    let r_data : ℚ := baud_rate * 1000
    let exponent : Nat := ratFloorLog2 (r_data * 2 ^ 20 / xtal_freq)
    let mantissa : ℤ := round (r_data * 2 ^ 28 / (xtal_freq * (2 : ℚ) ^ exponent) - 256)
    Except.ok (Int.toNat (max 0 (min 255 mantissa)), min 255 exponent)

/-- Convert a deviation configuration value to kHz
(config.rs `CommonConfig::config_to_deviation`). -/
def CommonConfig.config_to_deviation (mantissa exponent : Nat) : ℚ :=
  let xtal_freq : ℚ := XTAL_FREQ * 1000000
  let dev : ℚ := (xtal_freq / 2 ^ 17) * (mantissa + 8) * 2 ^ exponent
  roundTo (dev / 1000) 6

/-- Mantissa/exponent search space of `deviation_to_config`: `for mantissa in 0..8`
outer, `for exponent in 0..8` inner, in loop order. -/
def deviationPairs : List (Nat × Nat) :=
  (List.range 8).flatMap fun mantissa => (List.range 8).map fun exponent => (mantissa, exponent)

/-- Convert a deviation in kHz to a configuration value
(config.rs `CommonConfig::deviation_to_config`): first exact match in the
8×8 search space, else `InvalidDeviation`. -/
def CommonConfig.deviation_to_config (deviation : ℚ) : Except CC1101Error (Nat × Nat) :=
  match deviationPairs.find?
      (fun p => decide (CommonConfig.config_to_deviation p.1 p.2 = deviation)) with
  | some p => Except.ok p
  | none => Except.error (CC1101Error.Config ConfigError.InvalidDeviation)

/-- Convert a sync word to a configuration value
(config.rs `CommonConfig::sync_word_to_config`). On the `u32` domain the mask
`& 0x0000FFFF` is `% 2^16` and the shift `>> 16` is `/ 2^16`. -/
def CommonConfig.sync_word_to_config (sync_word : Nat) : Except CC1101Error Nat :=
  if 0xFFFF < sync_word then
    let lsb := sync_word % 2 ^ 16
    let msb := sync_word / 2 ^ 16
    if lsb ≠ msb then
      Except.error (CC1101Error.Config ConfigError.InvalidSyncWord)
    else
      Except.ok sync_word
  else
    Except.ok sync_word

/-- Convert a bandwidth configuration value to kHz
(config.rs `RXConfig::config_to_bandwidth`); the `as u32` cast of the positive
quotient is the floor. -/
def RXConfig.config_to_bandwidth (mantissa exponent : Nat) : Nat :=
  let xtal_freq : ℚ := XTAL_FREQ * 1000000
  let bw_channel : ℚ := xtal_freq / (8 * ((mantissa : ℚ) + 4) * 2 ^ exponent)
  Int.toNat ⌊bw_channel / 1000⌋

/-- Mantissa/exponent search space of `bandwidth_to_config`: `for mantissa in 0..4`
outer, `for exponent in 0..4` inner, in loop order. -/
def bandwidthPairs : List (Nat × Nat) :=
  (List.range 4).flatMap fun mantissa => (List.range 4).map fun exponent => (mantissa, exponent)

/-- Convert a bandwidth in kHz to a configuration value
(config.rs `RXConfig::bandwidth_to_config`). -/
def RXConfig.bandwidth_to_config (bandwidth : Nat) : Except CC1101Error (Nat × Nat) :=
  match bandwidthPairs.find?
      (fun p => decide (bandwidth = RXConfig.config_to_bandwidth p.1 p.2)) with
  | some p => Except.ok p
  | none => Except.error (CC1101Error.Config ConfigError.InvalidBandwidth)

/-- Result of a `&mut self` setter: the post-state of the receiver together
with the returned error, if any. On the source's `Err` early return the
receiver is whatever had been written to it up to that point. -/
def toExcept {α : Type} (r : α × Option CC1101Error) : Except CC1101Error α :=
  match r.2 with
  | some e => Except.error e
  | none => Except.ok r.1

/-- Setter for the frequency (config.rs `CommonConfig::set_frequency`). -/
def CommonConfig.set_frequency (c : CommonConfig) (frequency : ℚ) :
    CommonConfig × Option CC1101Error :=
  match CommonConfig.frequency_to_config frequency with
  | Except.ok f => ({ c with frequency := f }, none)
  | Except.error e => (c, some e)

/-- Getter for the frequency (config.rs `CommonConfig::get_frequency`). -/
def CommonConfig.get_frequency (c : CommonConfig) : ℚ :=
  CommonConfig.config_to_frequency c.frequency

/-- Setter for modulation and baud rate
(config.rs `CommonConfig::set_modulation_and_baud_rate`). -/
def CommonConfig.set_modulation_and_baud_rate (c : CommonConfig)
    (modulation : Modulation) (baud_rate : ℚ) : CommonConfig × Option CC1101Error :=
  match CommonConfig.baud_rate_to_config modulation baud_rate with
  | Except.ok (mantissa, exponent) =>
      ({ c with modulation := modulation, baud_rate_mantissa := mantissa,
                baud_rate_exponent := exponent }, none)
  | Except.error e => (c, some e)

/-- Setter for the deviation (config.rs `CommonConfig::set_deviation`). -/
def CommonConfig.set_deviation (c : CommonConfig) (deviation : ℚ) :
    CommonConfig × Option CC1101Error :=
  match CommonConfig.deviation_to_config deviation with
  | Except.ok (mantissa, exponent) =>
      ({ c with deviation_mantissa := mantissa, deviation_exponent := exponent }, none)
  | Except.error e => (c, some e)

/-- Setter for the sync word (config.rs `CommonConfig::set_sync_word`). -/
def CommonConfig.set_sync_word (c : CommonConfig) (sync_word : Nat) :
    CommonConfig × Option CC1101Error :=
  match CommonConfig.sync_word_to_config sync_word with
  | Except.ok sw => ({ c with sync_word := sw }, none)
  | Except.error e => (c, some e)

/-- Constructor (config.rs `CommonConfig::new`): apply the setters in source
order to the default config, propagating the first error. -/
def CommonConfig.new (frequency : ℚ) (modulation : Modulation) (baud_rate : ℚ)
    (deviation : Option ℚ) (sync_word : Option Nat) : Except CC1101Error CommonConfig := do
  let config := CommonConfig.default
  let config ← toExcept (config.set_frequency frequency)
  let config ← toExcept (config.set_modulation_and_baud_rate modulation baud_rate)
  let config ← match sync_word with
    | some sync_word => toExcept (config.set_sync_word sync_word)
    | none => toExcept (config.set_sync_word 0x00)
  match deviation with
  | some deviation => toExcept (config.set_deviation deviation)
  | none => pure config

/-- Setter for the bandwidth (config.rs `RXConfig::set_bandwidth`). -/
def RXConfig.set_bandwidth (c : RXConfig) (bandwidth : Nat) :
    RXConfig × Option CC1101Error :=
  match RXConfig.bandwidth_to_config bandwidth with
  | Except.ok (mantissa, exponent) =>
      ({ c with bandwidth_mantissa := mantissa, bandwidth_exponent := exponent }, none)
  | Except.error e => (c, some e)

/-- Setter for carrier sense (config.rs `RXConfig::set_carrier_sense`). -/
def RXConfig.set_carrier_sense (c : RXConfig) (carrier_sense : Option CarrierSense) :
    RXConfig × Option CC1101Error :=
  match carrier_sense with
  | some (CarrierSense.Relative v) =>
      if v = 6 ∨ v = 10 ∨ v = 14 then
        ({ c with carrier_sense_mode := CarrierSenseMode.Relative, carrier_sense := v }, none)
      else
        (c, some (CC1101Error.Config ConfigError.InvalidCarrierSense))
  | some (CarrierSense.Absolute v) =>
      if -7 ≤ v ∧ v ≤ 7 then
        ({ c with carrier_sense_mode := CarrierSenseMode.Absolute, carrier_sense := v }, none)
      else
        (c, some (CC1101Error.Config ConfigError.InvalidCarrierSense))
  | none =>
      ({ c with carrier_sense_mode := CarrierSenseMode.Disabled, carrier_sense := 0 }, none)

/-- Setter for the max LNA gain (config.rs `RXConfig::set_max_lna_gain`). -/
def RXConfig.set_max_lna_gain (c : RXConfig) (max_lna_gain : Nat) :
    RXConfig × Option CC1101Error :=
  if max_lna_gain = 0 ∨ max_lna_gain = 3 ∨ max_lna_gain = 6 ∨ max_lna_gain = 7
      ∨ max_lna_gain = 9 ∨ max_lna_gain = 12 ∨ max_lna_gain = 15 ∨ max_lna_gain = 17 then
    ({ c with max_lna_gain := max_lna_gain }, none)
  else
    (c, some (CC1101Error.Config ConfigError.InvalidMaxLNAGain))

/-- Setter for the max DVGA gain (config.rs `RXConfig::set_max_dvga_gain`). -/
def RXConfig.set_max_dvga_gain (c : RXConfig) (max_dvga_gain : Nat) :
    RXConfig × Option CC1101Error :=
  if max_dvga_gain = 0 ∨ max_dvga_gain = 6 ∨ max_dvga_gain = 12 ∨ max_dvga_gain = 18 then
    ({ c with max_dvga_gain := max_dvga_gain }, none)
  else
    (c, some (CC1101Error.Config ConfigError.InvalidMaxDVGAGain))

/-- Setter for the magnitude target (config.rs `RXConfig::set_magn_target`). -/
def RXConfig.set_magn_target (c : RXConfig) (magn_target : Nat) :
    RXConfig × Option CC1101Error :=
  if magn_target = 24 ∨ magn_target = 27 ∨ magn_target = 30 ∨ magn_target = 33
      ∨ magn_target = 36 ∨ magn_target = 38 ∨ magn_target = 40 ∨ magn_target = 42 then
    ({ c with magn_target := magn_target }, none)
  else
    (c, some (CC1101Error.Config ConfigError.InvalidMagnTarget))

/-- Setter for the packet length (config.rs `RXConfig::set_packet_length`):
stores the argument unconditionally, no validation, no error. -/
def RXConfig.set_packet_length (c : RXConfig) (packet_length : Nat) : RXConfig :=
  { c with packet_length := packet_length }

/-- Application of one of `RXConfig::new`'s `if let Some(x) = arg { ... }?`
blocks: run the setter when the optional argument is present, otherwise keep
the config. -/
def applyOptSetter {β : Type} (rx_config : RXConfig) (arg : Option β)
    (setter : RXConfig → β → RXConfig × Option CC1101Error) :
    Except CC1101Error RXConfig :=
  match arg with
  | some b => toExcept (setter rx_config b)
  | none => pure rx_config

/-- Constructor (config.rs `RXConfig::new`): build the common config, start
from the default RX config with the given common part and packet length, then
apply the optional setters in source order. -/
def RXConfig.new (frequency : ℚ) (modulation : Modulation) (baud_rate : ℚ)
    (packet_length : Nat) (deviation : Option ℚ) (sync_word : Option Nat)
    (bandwidth : Option Nat) (carrier_sense : Option CarrierSense)
    (max_lna_gain : Option Nat) (max_dvga_gain : Option Nat)
    (magn_target : Option Nat) : Except CC1101Error RXConfig := do
  let common ← CommonConfig.new frequency modulation baud_rate deviation sync_word
  let rx_config : RXConfig :=
    { RXConfig.default with common := common, packet_length := packet_length }
  let rx_config ← toExcept (rx_config.set_carrier_sense carrier_sense)
  let rx_config ← applyOptSetter rx_config bandwidth RXConfig.set_bandwidth
  let rx_config ← applyOptSetter rx_config max_lna_gain RXConfig.set_max_lna_gain
  let rx_config ← applyOptSetter rx_config max_dvga_gain RXConfig.set_max_dvga_gain
  let rx_config ← applyOptSetter rx_config magn_target RXConfig.set_magn_target
  pure rx_config

/-- Is a frequency close to a target frequency (config.rs `TXConfig::frequency_near`). -/
def TXConfig.frequency_near (frequency target_frequency : ℚ) : Bool :=
  decide (|frequency - target_frequency| < 1.0)

/-- Modelled from the spec: the four static per-band TX power tables live in
`patable.rs` (`TX_POWERS_315/433/868/915`), which is not among the given
sources. The spec (§2, §4.2) describes each as an ordered list of
(raw byte, calibrated dBm) pairs. Only entries witnessed by the crate
documentation are included here: the `TXConfig` doc examples use 0.1 dBm and
raw byte 0x60 at 433 MHz, and the source tests assert that byte 0xFF is
absent from the 433 MHz table. The theorems below do not depend on the table
contents beyond membership hypotheses. -/
def TX_POWERS_315 : List (Nat × ℚ) := []

/-- Modelled from the spec: see `TX_POWERS_315`. -/
def TX_POWERS_433 : List (Nat × ℚ) := [(0x60, 0.1)]

/-- Modelled from the spec: see `TX_POWERS_315`. -/
def TX_POWERS_868 : List (Nat × ℚ) := []

/-- Modelled from the spec: see `TX_POWERS_315`. -/
def TX_POWERS_915 : List (Nat × ℚ) := []

/-- Get the appropriate power table for a frequency
(config.rs `TXConfig::get_power_table`). -/
def TXConfig.get_power_table (frequency : ℚ) : Except CC1101Error (List (Nat × ℚ)) :=
  if TXConfig.frequency_near frequency 315.0 then
    Except.ok TX_POWERS_315
  else if TXConfig.frequency_near frequency 433.0 then
    Except.ok TX_POWERS_433
  else if TXConfig.frequency_near frequency 868.0 then
    Except.ok TX_POWERS_868
  else if TXConfig.frequency_near frequency 915.0 then
    Except.ok TX_POWERS_915
  else
    Except.error (CC1101Error.Config ConfigError.InvalidFrequency)

/-- Machine epsilon of `f32`, used by the dBm comparison in
`tx_power_to_config`. -/
def f32_epsilon : ℚ := 1 / 2 ^ 23

/-- Lookup a TX power in dBm in the appropriate power table
(config.rs `TXConfig::tx_power_to_config`). -/
def TXConfig.tx_power_to_config (frequency tx_power : ℚ) : Except CC1101Error Nat := do
  let power_table ← TXConfig.get_power_table frequency
  match power_table.find? (fun p => decide (|p.2 - tx_power| < f32_epsilon)) with
  | some p => Except.ok p.1
  | none => Except.error (CC1101Error.Config ConfigError.InvalidTXPower)

/-- Lookup a TX power PATABLE byte in the appropriate power table
(config.rs `TXConfig::config_to_tx_power`). -/
def TXConfig.config_to_tx_power (frequency : ℚ) (tx_power : Nat) : Except CC1101Error ℚ := do
  let power_table ← TXConfig.get_power_table frequency
  match power_table.find? (fun p => decide (p.1 = tx_power)) with
  | some p => Except.ok p.2
  | none => Except.error (CC1101Error.Config ConfigError.InvalidTXPower)

/-- Setter for the TX power in dBm (config.rs `TXConfig::set_tx_power`). -/
def TXConfig.set_tx_power (c : TXConfig) (tx_power : ℚ) : TXConfig × Option CC1101Error :=
  match TXConfig.tx_power_to_config c.common.get_frequency tx_power with
  | Except.ok hex => ({ c with tx_power := hex }, none)
  | Except.error e => (c, some e)

/-- Requests a session issues to the driver (ioctl.rs / lib.rs): opening a
fresh file handle, the get/set RX config ioctls, and a `read` call. -/
inductive Request
  | openHandle
  | getRxConf
  | setRxConf (config : RXConfig)
  | readPacket
deriving DecidableEq, Repr

/-- Session state (lib.rs `CC1101`): the device path, whether a file handle is
retained (blocking mode; the source stores `Option<File>`, of which only
`is_some()` feeds the logic modelled here), and the cached RX config. -/
structure CC1101 where
  device : String
  handle : Bool
  rx_config : Option RXConfig
deriving DecidableEq, Repr

/-- RX synchronization step (lib.rs `CC1101::set_rx_config_on_device`),
modelled as the list of driver requests issued, in order. `device_config` is
the driver's live RX config, returned by the get-RX-config ioctl when that
read is issued; ioctl transport failures are not modelled. -/
def CC1101.set_rx_config_on_device (old_config : Option RXConfig) (new_config : RXConfig)
    (blocking : Bool) (device_config : RXConfig) : List Request :=
  let configs_match : Bool :=
    match old_config with
    | some old_config => decide (old_config = new_config)
    | none => false
  if configs_match then
    if !blocking then
      Request.getRxConf ::
        (if device_config ≠ new_config then [Request.setRxConf new_config] else [])
    else []
  else
    [Request.setRxConf new_config]

/-- Outcome the driver gives one `read` call in `receive`'s loop: either a
successful read delivering `data` bytes into the buffer, or a raw OS error
(named by the `libc` constant the source matches on). -/
inductive ReadResult
  | ok (data : List Nat)
  | errENOMSG
  | errEMSGSIZE
  | errEBUSY
  | errEINVAL
  | errEFAULT
  | errOther
deriving DecidableEq, Repr

/-- Buffer contents after one successful `read` (lib.rs `CC1101::receive`):
the buffer is allocated as `vec![0; packet_length]` and the read overwrites
its prefix with the delivered bytes, so the pushed packet is the delivered
data truncated to the buffer size, zero-padded up to `packet_length`. -/
def mkPacket (packet_length : Nat) (data : List Nat) : List Nat :=
  data.take packet_length ++ List.replicate (packet_length - data.length) 0

/-- Read loop of lib.rs `CC1101::receive`: issue reads until the driver
reports `ENOMSG` (success, loop break) or another error (mapped to a device
error); each successful read pushes one buffer-sized packet. An exhausted
oracle list is read as "no more data". -/
def readLoop (packet_length : Nat) :
    List ReadResult → List (List Nat) →
      Except CC1101Error (List (List Nat)) × List Request
  | [], packets => (Except.ok packets, [])
  | ReadResult.ok data :: rest, packets =>
      let r := readLoop packet_length rest (packets ++ [mkPacket packet_length data])
      (r.1, Request.readPacket :: r.2)
  | ReadResult.errENOMSG :: _, packets => (Except.ok packets, [Request.readPacket])
  | ReadResult.errEMSGSIZE :: _, _ =>
      (Except.error (CC1101Error.Device DeviceError.PacketSize), [Request.readPacket])
  | ReadResult.errEBUSY :: _, _ =>
      (Except.error (CC1101Error.Device DeviceError.Busy), [Request.readPacket])
  | ReadResult.errEINVAL :: _, _ =>
      (Except.error (CC1101Error.Device DeviceError.InvalidConfig), [Request.readPacket])
  | ReadResult.errEFAULT :: _, _ =>
      (Except.error (CC1101Error.Device DeviceError.Copy), [Request.readPacket])
  | ReadResult.errOther :: _, _ =>
      (Except.error (CC1101Error.Device DeviceError.Unknown), [Request.readPacket])

/-- Receive (lib.rs `CC1101::receive`), as result plus the ordered driver
request trace. Without a cached RX config it fails with `NoRXConfig` before
any device interaction; otherwise it acquires a handle (opening one only in
non-blocking mode, where none is retained), synchronizes the RX config and
runs the read loop. -/
def CC1101.receive (cc : CC1101) (device_config : RXConfig) (reads : List ReadResult) :
    Except CC1101Error (List (List Nat)) × List Request :=
  match cc.rx_config with
  | some rx_config =>
      let handle_requests := if cc.handle then [] else [Request.openHandle]
      let sync_requests :=
        CC1101.set_rx_config_on_device cc.rx_config rx_config cc.handle device_config
      let r := readLoop rx_config.packet_length reads []
      (r.1, handle_requests ++ sync_requests ++ r.2)
  | none => (Except.error (CC1101Error.Device DeviceError.NoRXConfig), [])

/-- Bind on `Except` yields `ok` only through an `ok` intermediate value. -/
theorem exceptBind_ok {ε α β : Type} {x : Except ε α} {f : α → Except ε β} {b : β}
    (h : x >>= f = Except.ok b) : ∃ a, x = Except.ok a ∧ f a = Except.ok b := by
  cases x with
  | error e => simp [Bind.bind, Except.bind] at h
  | ok a => exact ⟨a, rfl, by simpa [Bind.bind, Except.bind] using h⟩

/-- A setter result converted by `toExcept` is `ok` exactly with the
setter's post-state. -/
theorem toExcept_ok_fst {α : Type} {r : α × Option CC1101Error} {x : α}
    (h : toExcept r = Except.ok x) : x = r.1 := by
  rcases r with ⟨a, e⟩
  cases e with
  | none => simpa [toExcept] using h.symm
  | some e => simp [toExcept] at h

/-- Claim C1: the RX synchronization step (`set_rx_config_on_device`) follows
the three-way decision table: a cached config that is absent or structurally
unequal to the new config triggers exactly one set-RX-config push; an equal
cached config with an exclusive (blocking) session triggers no driver request;
an equal cached config with a non-exclusive session triggers one get-RX-config
read followed by exactly one push when the driver's live config differs from
the new config, and no push otherwise. -/
theorem C1_rx_sync_decision_table (old_config : Option RXConfig)
    (new_config device_config : RXConfig) (blocking : Bool) :
    (old_config ≠ some new_config →
      CC1101.set_rx_config_on_device old_config new_config blocking device_config
        = [Request.setRxConf new_config])
    ∧ (old_config = some new_config → blocking = true →
      CC1101.set_rx_config_on_device old_config new_config blocking device_config = [])
    ∧ (old_config = some new_config → blocking = false →
      CC1101.set_rx_config_on_device old_config new_config blocking device_config
        = Request.getRxConf ::
            (if device_config ≠ new_config then [Request.setRxConf new_config] else [])) := by
  refine ⟨?_, ?_, ?_⟩
  · intro hne
    cases old_config with
    | none => rfl
    | some o =>
        have ho : o ≠ new_config := fun h => hne (by rw [h])
        simp [CC1101.set_rx_config_on_device, ho]
  · intro heq hb
    cases old_config with
    | none => cases heq
    | some o =>
        have ho : o = new_config := by injection heq
        subst ho hb
        simp [CC1101.set_rx_config_on_device]
  · intro heq hb
    cases old_config with
    | none => cases heq
    | some o =>
        have ho : o = new_config := by injection heq
        subst ho hb
        simp [CC1101.set_rx_config_on_device]

/-- Witness for C1: concrete instances of all three rows of the decision
table, evaluated on the default RX config (and, for the drifted-device row, a
live config that differs in its packet length). -/
theorem C1_rx_sync_decision_table_witness :
    CC1101.set_rx_config_on_device (some RXConfig.default) RXConfig.default true
        RXConfig.default = []
    ∧ CC1101.set_rx_config_on_device none RXConfig.default false RXConfig.default
        = [Request.setRxConf RXConfig.default]
    ∧ CC1101.set_rx_config_on_device (some RXConfig.default) RXConfig.default false
        (RXConfig.set_packet_length RXConfig.default 5)
        = [Request.getRxConf, Request.setRxConf RXConfig.default] := by
  refine ⟨(C1_rx_sync_decision_table _ _ _ _).2.1 rfl rfl,
          (C1_rx_sync_decision_table _ _ _ _).1 (by simp), ?_⟩
  rw [(C1_rx_sync_decision_table (some RXConfig.default) RXConfig.default
        (RXConfig.set_packet_length RXConfig.default 5) false).2.2 rfl rfl,
      if_pos (by decide)]

/-- Claim C3: `receive` on a session whose cached RX config is absent fails
with the `NoRXConfig` device error and issues no driver requests at all. -/
theorem C3_receive_no_rx_config (cc : CC1101) (device_config : RXConfig)
    (reads : List ReadResult) (h : cc.rx_config = none) :
    CC1101.receive cc device_config reads
      = (Except.error (CC1101Error.Device DeviceError.NoRXConfig), []) := by
  simp [CC1101.receive, h]

/-- Witness for C3: a concrete non-blocking session with no RX config. -/
theorem C3_receive_no_rx_config_witness :
    CC1101.receive ⟨"/dev/cc1101.0.0", false, none⟩ RXConfig.default
        [ReadResult.ok [1, 2, 3]]
      = (Except.error (CC1101Error.Device DeviceError.NoRXConfig), []) :=
  C3_receive_no_rx_config _ _ _ rfl

/-- Claim C7: `sync_word_to_config` accepts every value up to `0xFFFF`; above
`0xFFFF` it succeeds exactly when the high 16 bits equal the low 16 bits and
fails with `InvalidSyncWord` otherwise. The hypothesis restricts to the `u32`
domain of the source argument. -/
theorem C7_sync_word_validation (sync_word : Nat) (h : sync_word < 2 ^ 32) :
    (sync_word ≤ 0xFFFF →
      CommonConfig.sync_word_to_config sync_word = Except.ok sync_word)
    ∧ (0xFFFF < sync_word →
      (CommonConfig.sync_word_to_config sync_word = Except.ok sync_word ↔
        sync_word / 2 ^ 16 = sync_word % 2 ^ 16))
    ∧ (0xFFFF < sync_word → sync_word / 2 ^ 16 ≠ sync_word % 2 ^ 16 →
      CommonConfig.sync_word_to_config sync_word
        = Except.error (CC1101Error.Config ConfigError.InvalidSyncWord)) := by
  refine ⟨?_, ?_, ?_⟩
  · intro hle
    rw [CommonConfig.sync_word_to_config, if_neg (by omega)]
  · intro hgt
    rw [CommonConfig.sync_word_to_config, if_pos hgt]
    by_cases hne : sync_word % 2 ^ 16 ≠ sync_word / 2 ^ 16
    · rw [if_pos hne]
      constructor
      · intro hc; cases hc
      · intro hc; exact absurd hc.symm hne
    · rw [if_neg hne]
      push_neg at hne
      exact ⟨fun _ => hne.symm, fun _ => rfl⟩
  · intro hgt hne
    rw [CommonConfig.sync_word_to_config, if_pos hgt,
        if_pos (fun hc => hne hc.symm)]

/-- Witness for C7: the spec's four example sync words. -/
theorem C7_sync_word_validation_witness :
    CommonConfig.sync_word_to_config 0x1234 = Except.ok 0x1234
    ∧ CommonConfig.sync_word_to_config 0xFFFFFFFF = Except.ok 0xFFFFFFFF
    ∧ CommonConfig.sync_word_to_config 0xFFFF0000
        = Except.error (CC1101Error.Config ConfigError.InvalidSyncWord)
    ∧ CommonConfig.sync_word_to_config 0xAAAABBBB
        = Except.error (CC1101Error.Config ConfigError.InvalidSyncWord) :=
  ⟨(C7_sync_word_validation 0x1234 (by norm_num)).1 (by norm_num),
   ((C7_sync_word_validation 0xFFFFFFFF (by norm_num)).2.1 (by norm_num)).mpr (by norm_num),
   (C7_sync_word_validation 0xFFFF0000 (by norm_num)).2.2 (by norm_num) (by norm_num),
   (C7_sync_word_validation 0xAAAABBBB (by norm_num)).2.2 (by norm_num) (by norm_num)⟩

/-- Carrier sense setter leaves the packet length unchanged. -/
theorem set_carrier_sense_fst_packet_length (c : RXConfig) (cs : Option CarrierSense) :
    ((c.set_carrier_sense cs).1).packet_length = c.packet_length := by
  rcases cs with _ | v
  · rfl
  · rcases v with v | v <;>
      · simp only [RXConfig.set_carrier_sense]
        split <;> rfl

/-- Bandwidth setter leaves the packet length unchanged. -/
theorem set_bandwidth_fst_packet_length (c : RXConfig) (bandwidth : Nat) :
    ((c.set_bandwidth bandwidth).1).packet_length = c.packet_length := by
  cases hb : RXConfig.bandwidth_to_config bandwidth with
  | error e => simp [RXConfig.set_bandwidth, hb]
  | ok p => cases p; simp [RXConfig.set_bandwidth, hb]

/-- Max LNA gain setter leaves the packet length unchanged. -/
theorem set_max_lna_gain_fst_packet_length (c : RXConfig) (g : Nat) :
    ((c.set_max_lna_gain g).1).packet_length = c.packet_length := by
  simp only [RXConfig.set_max_lna_gain]
  split <;> rfl

/-- Max DVGA gain setter leaves the packet length unchanged. -/
theorem set_max_dvga_gain_fst_packet_length (c : RXConfig) (g : Nat) :
    ((c.set_max_dvga_gain g).1).packet_length = c.packet_length := by
  simp only [RXConfig.set_max_dvga_gain]
  split <;> rfl

/-- Magnitude target setter leaves the packet length unchanged. -/
theorem set_magn_target_fst_packet_length (c : RXConfig) (t : Nat) :
    ((c.set_magn_target t).1).packet_length = c.packet_length := by
  simp only [RXConfig.set_magn_target]
  split <;> rfl

/-- An optional-setter application whose setter preserves the packet length
preserves the packet length. -/
theorem applyOptSetter_ok_packet_length {β : Type} {rx_config : RXConfig}
    {arg : Option β} {setter : RXConfig → β → RXConfig × Option CC1101Error}
    {x : RXConfig} (hstep : ∀ c b, ((setter c b).1).packet_length = c.packet_length)
    (h : applyOptSetter rx_config arg setter = Except.ok x) :
    x.packet_length = rx_config.packet_length := by
  cases arg with
  | none => cases h; rfl
  | some b => rw [toExcept_ok_fst h, hstep]

/-- Counterexample to claim C2: `set_packet_length` stores its argument
without validation, so setting 0 on the default config yields a config with
packet length 0 — the claimed invariant `packet_length > 0` does not hold of
every constructing/mutating operation. -/
theorem C2_packet_length_claim_false :
    (RXConfig.set_packet_length RXConfig.default 0).packet_length = 0
    ∧ ¬ (∀ (c : RXConfig) (n : Nat),
          0 < (RXConfig.set_packet_length c n).packet_length) := by
  refine ⟨rfl, fun h => ?_⟩
  simpa [RXConfig.set_packet_length] using h RXConfig.default 0

/-- Claim C2, amended: the default RX config has positive packet length 1024,
but `set_packet_length` and `RXConfig::new` store the caller's packet length
unvalidated (zero included), so `packet_length > 0` holds only as far as the
caller supplies a positive length. -/
theorem C2_packet_length_amended :
    0 < RXConfig.default.packet_length
    ∧ (∀ (c : RXConfig) (n : Nat), (RXConfig.set_packet_length c n).packet_length = n)
    ∧ (∀ (frequency : ℚ) (modulation : Modulation) (baud_rate : ℚ)
        (packet_length : Nat) (deviation : Option ℚ) (sync_word : Option Nat)
        (bandwidth : Option Nat) (carrier_sense : Option CarrierSense)
        (max_lna_gain : Option Nat) (max_dvga_gain : Option Nat)
        (magn_target : Option Nat) (cfg : RXConfig),
        RXConfig.new frequency modulation baud_rate packet_length deviation
            sync_word bandwidth carrier_sense max_lna_gain max_dvga_gain
            magn_target = Except.ok cfg →
        cfg.packet_length = packet_length) := by
  refine ⟨by norm_num [RXConfig.default], fun c n => rfl, ?_⟩
  intro frequency modulation baud_rate packet_length deviation sync_word
    bandwidth carrier_sense max_lna_gain max_dvga_gain magn_target cfg h
  rw [RXConfig.new] at h
  obtain ⟨common, hcom, h⟩ := exceptBind_ok h
  obtain ⟨rx1, h1, h⟩ := exceptBind_ok h
  have e1 : rx1.packet_length = packet_length := by
    rw [toExcept_ok_fst h1, set_carrier_sense_fst_packet_length]
  obtain ⟨rx2, h2, h⟩ := exceptBind_ok h
  have e2 : rx2.packet_length = rx1.packet_length :=
    applyOptSetter_ok_packet_length set_bandwidth_fst_packet_length h2
  obtain ⟨rx3, h3, h⟩ := exceptBind_ok h
  have e3 : rx3.packet_length = rx2.packet_length :=
    applyOptSetter_ok_packet_length set_max_lna_gain_fst_packet_length h3
  obtain ⟨rx4, h4, h⟩ := exceptBind_ok h
  have e4 : rx4.packet_length = rx3.packet_length :=
    applyOptSetter_ok_packet_length set_max_dvga_gain_fst_packet_length h4
  obtain ⟨rx5, h5, h⟩ := exceptBind_ok h
  have e5 : rx5.packet_length = rx4.packet_length :=
    applyOptSetter_ok_packet_length set_magn_target_fst_packet_length h5
  cases h
  omega

/-- Witness for the amended C2: the crate's doc example
`RXConfig::new(433.92, OOK, 1.0, 64, ...)` succeeds and carries packet
length 64, exactly the supplied argument. -/
theorem C2_packet_length_amended_witness :
    RXConfig.new 433.92 Modulation.OOK 1.0 64 none none none none none none none
      = Except.ok
          { common :=
              { frequency := 1093745, modulation := Modulation.OOK,
                baud_rate_mantissa := 67, baud_rate_exponent := 5,
                deviation_mantissa := 7, deviation_exponent := 4, sync_word := 0 },
            bandwidth_mantissa := 0, bandwidth_exponent := 2, max_lna_gain := 0,
            max_dvga_gain := 0, magn_target := 33,
            carrier_sense_mode := CarrierSenseMode.Disabled, carrier_sense := 0,
            packet_length := 64 }
    ∧ ({ common :=
           { frequency := 1093745, modulation := Modulation.OOK,
             baud_rate_mantissa := 67, baud_rate_exponent := 5,
             deviation_mantissa := 7, deviation_exponent := 4, sync_word := 0 },
         bandwidth_mantissa := 0, bandwidth_exponent := 2, max_lna_gain := 0,
         max_dvga_gain := 0, magn_target := 33,
         carrier_sense_mode := CarrierSenseMode.Disabled, carrier_sense := 0,
         packet_length := 64 } : RXConfig).packet_length = 64 :=
  ⟨by decide, C2_packet_length_amended.2.2 433.92 Modulation.OOK 1.0 64 none none
      none none none none none _ (by decide)⟩

/-- Claim C9: every config setter is atomic — whenever it reports an error,
the post-state equals the pre-state in every field. Stated for all ten
setters: `set_frequency`, `set_modulation_and_baud_rate`, `set_deviation`,
`set_sync_word`, `set_bandwidth`, `set_carrier_sense`, `set_max_lna_gain`,
`set_max_dvga_gain`, `set_magn_target` and `set_tx_power`. -/
theorem C9_setters_atomic :
    (∀ (c : CommonConfig) (x : ℚ) (e : CC1101Error),
      (c.set_frequency x).2 = some e → (c.set_frequency x).1 = c)
    ∧ (∀ (c : CommonConfig) (m : Modulation) (x : ℚ) (e : CC1101Error),
      (c.set_modulation_and_baud_rate m x).2 = some e →
        (c.set_modulation_and_baud_rate m x).1 = c)
    ∧ (∀ (c : CommonConfig) (x : ℚ) (e : CC1101Error),
      (c.set_deviation x).2 = some e → (c.set_deviation x).1 = c)
    ∧ (∀ (c : CommonConfig) (w : Nat) (e : CC1101Error),
      (c.set_sync_word w).2 = some e → (c.set_sync_word w).1 = c)
    ∧ (∀ (c : RXConfig) (bw : Nat) (e : CC1101Error),
      (c.set_bandwidth bw).2 = some e → (c.set_bandwidth bw).1 = c)
    ∧ (∀ (c : RXConfig) (cs : Option CarrierSense) (e : CC1101Error),
      (c.set_carrier_sense cs).2 = some e → (c.set_carrier_sense cs).1 = c)
    ∧ (∀ (c : RXConfig) (g : Nat) (e : CC1101Error),
      (c.set_max_lna_gain g).2 = some e → (c.set_max_lna_gain g).1 = c)
    ∧ (∀ (c : RXConfig) (g : Nat) (e : CC1101Error),
      (c.set_max_dvga_gain g).2 = some e → (c.set_max_dvga_gain g).1 = c)
    ∧ (∀ (c : RXConfig) (t : Nat) (e : CC1101Error),
      (c.set_magn_target t).2 = some e → (c.set_magn_target t).1 = c)
    ∧ (∀ (c : TXConfig) (p : ℚ) (e : CC1101Error),
      (c.set_tx_power p).2 = some e → (c.set_tx_power p).1 = c) := by
  refine ⟨?_, ?_, ?_, ?_, ?_, ?_, ?_, ?_, ?_, ?_⟩
  · intro c x e h
    rw [CommonConfig.set_frequency] at h ⊢
    generalize CommonConfig.frequency_to_config x = r at h ⊢
    cases r
    case error => rfl
    case ok => simp at h
  · intro c m x e h
    rw [CommonConfig.set_modulation_and_baud_rate] at h ⊢
    generalize CommonConfig.baud_rate_to_config m x = r at h ⊢
    cases r
    case error => rfl
    case ok p => cases p; simp at h
  · intro c x e h
    rw [CommonConfig.set_deviation] at h ⊢
    generalize CommonConfig.deviation_to_config x = r at h ⊢
    cases r
    case error => rfl
    case ok p => cases p; simp at h
  · intro c w e h
    rw [CommonConfig.set_sync_word] at h ⊢
    generalize CommonConfig.sync_word_to_config w = r at h ⊢
    cases r
    case error => rfl
    case ok => simp at h
  · intro c bw e h
    rw [RXConfig.set_bandwidth] at h ⊢
    generalize RXConfig.bandwidth_to_config bw = r at h ⊢
    cases r
    case error => rfl
    case ok p => cases p; simp at h
  · intro c cs e h
    rcases cs with _ | v
    · simp [RXConfig.set_carrier_sense] at h
    · rcases v with v | v
      · rw [RXConfig.set_carrier_sense] at h ⊢
        by_cases hv : v = 6 ∨ v = 10 ∨ v = 14
        · rw [if_pos hv] at h; simp at h
        · rw [if_neg hv]
      · rw [RXConfig.set_carrier_sense] at h ⊢
        by_cases hv : -7 ≤ v ∧ v ≤ 7
        · rw [if_pos hv] at h; simp at h
        · rw [if_neg hv]
  · intro c g e h
    rw [RXConfig.set_max_lna_gain] at h ⊢
    by_cases hg : g = 0 ∨ g = 3 ∨ g = 6 ∨ g = 7 ∨ g = 9 ∨ g = 12 ∨ g = 15 ∨ g = 17
    · rw [if_pos hg] at h; simp at h
    · rw [if_neg hg]
  · intro c g e h
    rw [RXConfig.set_max_dvga_gain] at h ⊢
    by_cases hg : g = 0 ∨ g = 6 ∨ g = 12 ∨ g = 18
    · rw [if_pos hg] at h; simp at h
    · rw [if_neg hg]
  · intro c t e h
    rw [RXConfig.set_magn_target] at h ⊢
    by_cases ht : t = 24 ∨ t = 27 ∨ t = 30 ∨ t = 33 ∨ t = 36 ∨ t = 38 ∨ t = 40 ∨ t = 42
    · rw [if_pos ht] at h; simp at h
    · rw [if_neg ht]
  · intro c p e h
    unfold TXConfig.set_tx_power at h ⊢
    generalize TXConfig.tx_power_to_config c.common.get_frequency p = r at h ⊢
    cases r
    case error => rfl
    case ok => simp at h

/-- Witness for C9: two failing setters evaluated concretely — an
out-of-band frequency and an invalid relative carrier sense step — leave the
default configs untouched. -/
theorem C9_setters_atomic_witness :
    (CommonConfig.set_frequency CommonConfig.default 10).1 = CommonConfig.default
    ∧ (RXConfig.set_carrier_sense RXConfig.default
        (some (CarrierSense.Relative 7))).1 = RXConfig.default :=
  ⟨C9_setters_atomic.1 CommonConfig.default 10
      (CC1101Error.Config ConfigError.InvalidFrequency) (by decide),
   C9_setters_atomic.2.2.2.2.2.1 RXConfig.default (some (CarrierSense.Relative 7))
      (CC1101Error.Config ConfigError.InvalidCarrierSense) (by decide)⟩

/-- The modulation-dependent baud-rate guard of `baud_rate_to_config`, as a
proposition (config.rs `CommonConfig::baud_rate_to_config`, `valid_baud_rate`). -/
def validBaudRange (modulation : Modulation) (baud_rate : ℚ) : Prop :=
  match modulation with
  | Modulation.GFSK | Modulation.OOK => 0.599742 ≤ baud_rate ∧ baud_rate ≤ 249.939
  | Modulation.FSK2 => 0.599742 ≤ baud_rate ∧ baud_rate ≤ 500.0
  | Modulation.FSK4 => 0.599742 ≤ baud_rate ∧ baud_rate ≤ 299.927
  | Modulation.MSK => 25.9857 ≤ baud_rate ∧ baud_rate ≤ 499.878

/-- Counterexample to claim C4: the claim places 500 kBaud inside MSK's
accepted range [26, 500], but the code's MSK guard is `25.9857..=499.878`,
so 500 kBaud under MSK is rejected with `InvalidBaudRate`. -/
theorem C4_baud_rate_claim_false :
    (26 : ℚ) ≤ 500 ∧ (500 : ℚ) ≤ 500
    ∧ CommonConfig.baud_rate_to_config Modulation.MSK 500
        = Except.error (CC1101Error.Config ConfigError.InvalidBaudRate) := by
  refine ⟨by norm_num, le_refl _, by decide⟩

/-- Claim C4, amended: `baud_rate_to_config` accepts exactly the rates in the
code's per-modulation guard ranges — [0.599742, 249.939] for GFSK/OOK,
[0.599742, 500] for 2-FSK, [0.599742, 299.927] for 4-FSK and
[25.9857, 499.878] (not [26, 500]) for MSK — and rejects everything else
with `InvalidBaudRate`. -/
theorem C4_baud_rate_ranges_amended (modulation : Modulation) (baud_rate : ℚ) :
    ((∃ p, CommonConfig.baud_rate_to_config modulation baud_rate = Except.ok p)
      ↔ validBaudRange modulation baud_rate)
    ∧ (¬ validBaudRange modulation baud_rate →
      CommonConfig.baud_rate_to_config modulation baud_rate
        = Except.error (CC1101Error.Config ConfigError.InvalidBaudRate)) := by
  have key : ∀ (g : Prop) (inst : Decidable g),
      (validBaudRange modulation baud_rate ↔ g) →
      (∃ v, CommonConfig.baud_rate_to_config modulation baud_rate
          = if !(decide g) then Except.error (CC1101Error.Config ConfigError.InvalidBaudRate)
            else Except.ok v) →
      ((∃ p, CommonConfig.baud_rate_to_config modulation baud_rate = Except.ok p)
          ↔ validBaudRange modulation baud_rate)
        ∧ (¬ validBaudRange modulation baud_rate →
          CommonConfig.baud_rate_to_config modulation baud_rate
            = Except.error (CC1101Error.Config ConfigError.InvalidBaudRate)) := by
    rintro g inst hg ⟨v, hif⟩
    by_cases h : g
    · have hok : CommonConfig.baud_rate_to_config modulation baud_rate = Except.ok v := by
        rw [hif, if_neg]
        simp [h]
      rw [hg]
      exact ⟨⟨fun _ => h, fun _ => ⟨v, hok⟩⟩, fun hn => absurd h hn⟩
    · have herr : CommonConfig.baud_rate_to_config modulation baud_rate
          = Except.error (CC1101Error.Config ConfigError.InvalidBaudRate) := by
        rw [hif, if_pos]
        simp [h]
      rw [hg]
      refine ⟨⟨fun hp => ?_, fun hgg => absurd hgg h⟩, fun _ => herr⟩
      obtain ⟨p, hp⟩ := hp
      rw [herr] at hp
      cases hp
  cases modulation
  case FSK2 =>
    exact key ((0.599742 : ℚ) ≤ baud_rate ∧ baud_rate ≤ 500.0) inferInstance
      (by rw [validBaudRange]) ⟨_, rfl⟩
  case GFSK =>
    exact key ((0.599742 : ℚ) ≤ baud_rate ∧ baud_rate ≤ 249.939) inferInstance
      (by rw [validBaudRange]) ⟨_, rfl⟩
  case OOK =>
    exact key ((0.599742 : ℚ) ≤ baud_rate ∧ baud_rate ≤ 249.939) inferInstance
      (by rw [validBaudRange]) ⟨_, rfl⟩
  case FSK4 =>
    exact key ((0.599742 : ℚ) ≤ baud_rate ∧ baud_rate ≤ 299.927) inferInstance
      (by rw [validBaudRange]) ⟨_, rfl⟩
  case MSK =>
    exact key ((25.9857 : ℚ) ≤ baud_rate ∧ baud_rate ≤ 499.878) inferInstance
      (by rw [validBaudRange]) ⟨_, rfl⟩

/-- Witness for the amended C4: 26 kBaud is accepted under MSK (encoding to
mantissa 6, exponent 10, the source test vector) and 1000 kBaud is rejected. -/
theorem C4_baud_rate_ranges_amended_witness :
    CommonConfig.baud_rate_to_config Modulation.MSK 26 = Except.ok (6, 10)
    ∧ CommonConfig.baud_rate_to_config Modulation.MSK 1000
        = Except.error (CC1101Error.Config ConfigError.InvalidBaudRate) :=
  ⟨by decide,
   (C4_baud_rate_ranges_amended Modulation.MSK 1000).2
      (by rw [validBaudRange]; norm_num)⟩

/-- Claim C5: power-table selection succeeds exactly when the frequency is
within 1 MHz of one of 315/433/868/915 MHz and fails with `InvalidFrequency`
otherwise; for a selected table, looking up a raw byte absent from the table
fails with `InvalidTXPower`. -/
theorem C5_tx_power_table_selection (frequency : ℚ) :
    ((∃ t, TXConfig.get_power_table frequency = Except.ok t)
      ↔ (|frequency - 315.0| < 1.0 ∨ |frequency - 433.0| < 1.0
          ∨ |frequency - 868.0| < 1.0 ∨ |frequency - 915.0| < 1.0))
    ∧ (¬ (|frequency - 315.0| < 1.0 ∨ |frequency - 433.0| < 1.0
          ∨ |frequency - 868.0| < 1.0 ∨ |frequency - 915.0| < 1.0) →
      TXConfig.get_power_table frequency
        = Except.error (CC1101Error.Config ConfigError.InvalidFrequency))
    ∧ (∀ (t : List (Nat × ℚ)) (b : Nat),
        TXConfig.get_power_table frequency = Except.ok t →
        b ∉ t.map Prod.fst →
        TXConfig.config_to_tx_power frequency b
          = Except.error (CC1101Error.Config ConfigError.InvalidTXPower)) := by
  refine ⟨?_, ?_, ?_⟩
  · rw [TXConfig.get_power_table]
    split_ifs with h1 h2 h3 h4 <;> simp_all [TXConfig.frequency_near]
  · intro hn
    rw [TXConfig.get_power_table]
    split_ifs with h1 h2 h3 h4 <;> simp_all [TXConfig.frequency_near] <;>
      linarith [hn.1, hn.2.1, hn.2.2.1, hn.2.2.2]
  · intro t b ht hb
    unfold TXConfig.config_to_tx_power
    rw [ht]
    have hnone : t.find? (fun p => decide (p.1 = b)) = none := by
      rw [List.find?_eq_none]
      intro p hp
      simp only [decide_eq_true_eq]
      intro hpb
      exact hb (hpb ▸ List.mem_map_of_mem Prod.fst hp)
    simp [Bind.bind, Except.bind, hnone]

/-- Witness for C5: 433 MHz selects the 433 MHz table; byte 0xFF is absent
from it (as the source tests assert) and its lookup fails with
`InvalidTXPower`; 123 MHz is far from every band and fails with
`InvalidFrequency`. -/
theorem C5_tx_power_table_selection_witness :
    TXConfig.config_to_tx_power 433.0 0xFF
        = Except.error (CC1101Error.Config ConfigError.InvalidTXPower)
    ∧ TXConfig.get_power_table 123.0
        = Except.error (CC1101Error.Config ConfigError.InvalidFrequency) :=
  ⟨(C5_tx_power_table_selection 433.0).2.2 TX_POWERS_433 0xFF (by decide) (by decide),
   (C5_tx_power_table_selection 123.0).2.1 (by decide)⟩

/-- Membership in the deviation search space from the loop bounds. -/
theorem deviationPairs_mem {m e : Nat} (hm : m < 8) (he : e < 8) :
    (m, e) ∈ deviationPairs :=
  List.mem_flatMap.mpr ⟨m, List.mem_range.mpr hm,
    List.mem_map.mpr ⟨e, List.mem_range.mpr he, rfl⟩⟩

/-- Loop bounds from membership in the deviation search space. -/
theorem deviationPairs_bounds {p : Nat × Nat} (hp : p ∈ deviationPairs) :
    p.1 < 8 ∧ p.2 < 8 := by
  obtain ⟨a, ha, hpm⟩ := List.mem_flatMap.mp hp
  obtain ⟨b, hb, hpe⟩ := List.mem_map.mp hpm
  cases hpe
  exact ⟨List.mem_range.mp ha, List.mem_range.mp hb⟩

/-- Membership in the bandwidth search space from the loop bounds. -/
theorem bandwidthPairs_mem {m e : Nat} (hm : m < 4) (he : e < 4) :
    (m, e) ∈ bandwidthPairs :=
  List.mem_flatMap.mpr ⟨m, List.mem_range.mpr hm,
    List.mem_map.mpr ⟨e, List.mem_range.mpr he, rfl⟩⟩

/-- Loop bounds from membership in the bandwidth search space. -/
theorem bandwidthPairs_bounds {p : Nat × Nat} (hp : p ∈ bandwidthPairs) :
    p.1 < 4 ∧ p.2 < 4 := by
  obtain ⟨a, ha, hpm⟩ := List.mem_flatMap.mp hp
  obtain ⟨b, hb, hpe⟩ := List.mem_map.mp hpm
  cases hpe
  exact ⟨List.mem_range.mp ha, List.mem_range.mp hb⟩

/-- Claim C6: for every representable deviation (image of the 8×8 search
space) and every representable bandwidth (image of the 4×4 search space),
encoding succeeds and decoding the resulting pair returns the input exactly;
any value outside the respective image fails with `InvalidDeviation` /
`InvalidBandwidth`. -/
theorem C6_deviation_bandwidth_round_trip :
    (∀ m e : Nat, m < 8 → e < 8 →
      ∃ p, CommonConfig.deviation_to_config (CommonConfig.config_to_deviation m e)
            = Except.ok p
        ∧ CommonConfig.config_to_deviation p.1 p.2
            = CommonConfig.config_to_deviation m e)
    ∧ (∀ d : ℚ, (∀ m < 8, ∀ e < 8, CommonConfig.config_to_deviation m e ≠ d) →
      CommonConfig.deviation_to_config d
        = Except.error (CC1101Error.Config ConfigError.InvalidDeviation))
    ∧ (∀ m e : Nat, m < 4 → e < 4 →
      ∃ p, RXConfig.bandwidth_to_config (RXConfig.config_to_bandwidth m e)
            = Except.ok p
        ∧ RXConfig.config_to_bandwidth p.1 p.2 = RXConfig.config_to_bandwidth m e)
    ∧ (∀ bw : Nat, (∀ m < 4, ∀ e < 4, RXConfig.config_to_bandwidth m e ≠ bw) →
      RXConfig.bandwidth_to_config bw
        = Except.error (CC1101Error.Config ConfigError.InvalidBandwidth)) := by
  refine ⟨?_, ?_, ?_, ?_⟩
  · intro m e hm he
    unfold CommonConfig.deviation_to_config
    cases hf : deviationPairs.find?
        (fun p => decide (CommonConfig.config_to_deviation p.1 p.2
          = CommonConfig.config_to_deviation m e)) with
    | some p =>
        have hp := List.find?_some hf
        simp only [decide_eq_true_eq] at hp
        exact ⟨p, rfl, hp⟩
    | none =>
        exfalso
        have h := List.find?_eq_none.mp hf (m, e) (deviationPairs_mem hm he)
        simp at h
  · intro d hd
    unfold CommonConfig.deviation_to_config
    have hnone : deviationPairs.find?
        (fun p => decide (CommonConfig.config_to_deviation p.1 p.2 = d)) = none := by
      rw [List.find?_eq_none]
      intro p hp
      have hb := deviationPairs_bounds hp
      simp only [decide_eq_true_eq]
      exact hd p.1 hb.1 p.2 hb.2
    rw [hnone]
  · intro m e hm he
    unfold RXConfig.bandwidth_to_config
    cases hf : bandwidthPairs.find?
        (fun p => decide (RXConfig.config_to_bandwidth m e
          = RXConfig.config_to_bandwidth p.1 p.2)) with
    | some p =>
        have hp := List.find?_some hf
        simp only [decide_eq_true_eq] at hp
        exact ⟨p, rfl, hp.symm⟩
    | none =>
        exfalso
        have h := List.find?_eq_none.mp hf (m, e) (bandwidthPairs_mem hm he)
        simp at h
  · intro bw hbw
    unfold RXConfig.bandwidth_to_config
    have hnone : bandwidthPairs.find?
        (fun p => decide (bw = RXConfig.config_to_bandwidth p.1 p.2)) = none := by
      rw [List.find?_eq_none]
      intro p hp
      have hb := bandwidthPairs_bounds hp
      simp only [decide_eq_true_eq]
      intro hc
      exact hbw p.1 hb.1 p.2 hb.2 hc.symm
    rw [hnone]

/-- Witness for C6: the extreme representable deviation 380.859375 kHz
(mantissa 7, exponent 7) and bandwidth 203 kHz (mantissa 0, exponent 2)
round-trip; the spec's out-of-range examples, deviation 400 kHz and
bandwidth 400 kHz, fail. -/
theorem C6_deviation_bandwidth_round_trip_witness :
    (∃ p, CommonConfig.deviation_to_config (CommonConfig.config_to_deviation 7 7)
          = Except.ok p
      ∧ CommonConfig.config_to_deviation p.1 p.2
          = CommonConfig.config_to_deviation 7 7)
    ∧ CommonConfig.deviation_to_config 400
        = Except.error (CC1101Error.Config ConfigError.InvalidDeviation)
    ∧ (∃ p, RXConfig.bandwidth_to_config (RXConfig.config_to_bandwidth 0 2)
          = Except.ok p
      ∧ RXConfig.config_to_bandwidth p.1 p.2 = RXConfig.config_to_bandwidth 0 2)
    ∧ RXConfig.bandwidth_to_config 400
        = Except.error (CC1101Error.Config ConfigError.InvalidBandwidth) :=
  ⟨C6_deviation_bandwidth_round_trip.1 7 7 (by norm_num) (by norm_num),
   C6_deviation_bandwidth_round_trip.2.1 400 (by decide),
   C6_deviation_bandwidth_round_trip.2.2.1 0 2 (by norm_num) (by norm_num),
   C6_deviation_bandwidth_round_trip.2.2.2 400 (by decide)⟩

/-- Counterexample to claim C8: the code's frequency resolution step is
26/2^16 ≈ 0.00039673 MHz, slightly larger than the claimed bound 0.000396;
at the in-band frequency 206438439974/655360000 ≈ 314.9996640 MHz (whose
scaled value falls just below an encoding-step boundary) the decode error is
26·0.9999/65536 ≈ 0.00039669 MHz, exceeding 0.000396. -/
theorem C8_frequency_claim_false :
    ((299.99976 : ℚ) ≤ 206438439974 / 655360000
      ∧ (206438439974 / 655360000 : ℚ) ≤ 347.99994)
    ∧ CommonConfig.frequency_to_config (206438439974 / 655360000)
        = Except.ok 793993
    ∧ ¬ |CommonConfig.config_to_frequency 793993 - 206438439974 / 655360000|
          ≤ 396 / 1000000 :=
  ⟨by norm_num, by decide, by decide⟩

/-- Claim C8, amended: for every in-band frequency the encoding succeeds with
`word = ⌊f·2^16/26⌋` and decoding that word lands strictly within one
resolution step 26/2^16 ≈ 0.000397 MHz of `f` (the claimed 0.000396 MHz bound
is slightly too tight). -/
theorem C8_frequency_round_trip_amended (f : ℚ)
    (h : (299.99976 ≤ f ∧ f ≤ 347.99994) ∨ (386.99994 ≤ f ∧ f ≤ 463.9998)
        ∨ (778.9999 ≤ f ∧ f ≤ 928.000000)) :
    CommonConfig.frequency_to_config f
      = Except.ok (Int.toNat ⌊f * 65536 / XTAL_FREQ⌋)
    ∧ |CommonConfig.config_to_frequency (Int.toNat ⌊f * 65536 / XTAL_FREQ⌋) - f|
        < XTAL_FREQ / 2 ^ 16 := by
  have hfpos : 0 < f := by
    have c1 : (0 : ℚ) < 299.99976 := by norm_num
    have c2 : (0 : ℚ) < 386.99994 := by norm_num
    have c3 : (0 : ℚ) < 778.9999 := by norm_num
    rcases h with ⟨h1, _⟩ | ⟨h1, _⟩ | ⟨h1, _⟩ <;> linarith
  constructor
  · rw [CommonConfig.frequency_to_config, if_neg (not_not_intro h)]
  · have hx : (0 : ℚ) < f * 65536 / XTAL_FREQ := by
      rw [XTAL_FREQ]
      positivity
    have hn0 : 0 ≤ ⌊f * 65536 / XTAL_FREQ⌋ := Int.floor_nonneg.mpr (le_of_lt hx)
    have hcast : ((Int.toNat ⌊f * 65536 / XTAL_FREQ⌋ : ℕ) : ℚ)
        = ((⌊f * 65536 / XTAL_FREQ⌋ : ℤ) : ℚ) := by
      exact_mod_cast congrArg (Int.cast : ℤ → ℚ) (Int.toNat_of_nonneg hn0)
    have h1 : ((⌊f * 65536 / XTAL_FREQ⌋ : ℤ) : ℚ) ≤ f * 65536 / XTAL_FREQ :=
      Int.floor_le _
    have h2 : f * 65536 / XTAL_FREQ < (⌊f * 65536 / XTAL_FREQ⌋ : ℚ) + 1 :=
      Int.lt_floor_add_one _
    rw [CommonConfig.config_to_frequency, hcast]
    rw [XTAL_FREQ] at h1 h2 ⊢
    have hp : (2 : ℚ) ^ 16 = 65536 := by norm_num
    rw [hp]
    set q : ℚ := ((⌊f * 65536 / 26⌋ : ℤ) : ℚ) with hq
    have key1 : 26 / 65536 * q ≤ f := by
      have hm := mul_le_mul_of_nonneg_left h1 (by norm_num : (0 : ℚ) ≤ 26 / 65536)
      calc 26 / 65536 * q ≤ 26 / 65536 * (f * 65536 / 26) := hm
        _ = f := by ring
    have key2 : f < 26 / 65536 * q + 26 / 65536 := by
      have hm := mul_lt_mul_of_pos_left h2 (by norm_num : (0 : ℚ) < 26 / 65536)
      calc f = 26 / 65536 * (f * 65536 / 26) := by ring
        _ < 26 / 65536 * (q + 1) := hm
        _ = 26 / 65536 * q + 26 / 65536 := by ring
    rw [abs_lt]
    constructor <;> linarith

/-- Witness for the amended C8: encoding 315 MHz yields word 0x000C1D89,
decoding it lands within one resolution step of 315 MHz, and within 10⁻⁶ MHz
of the spec's quoted decode value 314.999664. -/
theorem C8_frequency_round_trip_amended_witness :
    CommonConfig.frequency_to_config 315 = Except.ok 0x000C1D89
    ∧ |CommonConfig.config_to_frequency 0x000C1D89 - 315| < XTAL_FREQ / 2 ^ 16
    ∧ |CommonConfig.config_to_frequency 0x000C1D89 - 314.999664| < 1 / 10 ^ 6 := by
  have h := C8_frequency_round_trip_amended 315 (Or.inl (by norm_num))
  have hw : Int.toNat ⌊(315 : ℚ) * 65536 / XTAL_FREQ⌋ = 0x000C1D89 := by decide
  refine ⟨h.1.trans (by rw [hw]), ?_, by decide⟩
  have h2 := h.2
  rwa [hw] at h2

/-- Every packet buffer built in the receive loop has length exactly
`packet_length`: the delivered bytes are truncated to the buffer and the
remainder keeps its zero fill. -/
theorem mkPacket_length (packet_length : Nat) (data : List Nat) :
    (mkPacket packet_length data).length = packet_length := by
  simp [mkPacket]
  omega

/-- The read loop only ever returns packets of length `packet_length`
(given that the already-accumulated packets have that length). -/
theorem readLoop_ok_length (packet_length : Nat) (reads : List ReadResult) :
    ∀ (acc packets : List (List Nat)),
      (∀ p ∈ acc, p.length = packet_length) →
      (readLoop packet_length reads acc).1 = Except.ok packets →
      ∀ p ∈ packets, p.length = packet_length := by
  induction reads with
  | nil =>
      intro acc packets hacc h
      rw [readLoop] at h
      cases h
      exact hacc
  | cons r rest ih =>
      intro acc packets hacc h
      cases r with
      | ok data =>
          rw [readLoop] at h
          refine ih _ _ ?_ h
          intro p hp
          rcases List.mem_append.mp hp with h1 | h2
          · exact hacc p h1
          · rw [List.mem_singleton.mp h2]
            exact mkPacket_length _ _
      | errENOMSG =>
          rw [readLoop] at h
          cases h
          exact hacc
      | errEMSGSIZE => rw [readLoop] at h; exact absurd h (by simp)
      | errEBUSY => rw [readLoop] at h; exact absurd h (by simp)
      | errEINVAL => rw [readLoop] at h; exact absurd h (by simp)
      | errEFAULT => rw [readLoop] at h; exact absurd h (by simp)
      | errOther => rw [readLoop] at h; exact absurd h (by simp)

/-- Claim C10: every packet of a successful `receive` call has length exactly
the cached RX config's `packet_length`, regardless of how many bytes each
underlying read delivered. -/
theorem C10_receive_packet_lengths (cc : CC1101) (device_config : RXConfig)
    (reads : List ReadResult) (rx_config : RXConfig)
    (packets : List (List Nat)) (requests : List Request)
    (hcfg : cc.rx_config = some rx_config)
    (hok : CC1101.receive cc device_config reads = (Except.ok packets, requests)) :
    ∀ p ∈ packets, p.length = rx_config.packet_length := by
  rw [CC1101.receive, hcfg] at hok
  exact readLoop_ok_length rx_config.packet_length reads [] packets
    (by intro p hp; cases hp) (congrArg Prod.fst hok)

/-- Witness for C10: a blocking session with packet length 8 receives one
short read of three bytes; the returned packet is zero-padded to exactly
8 bytes even though only 3 were delivered. -/
theorem C10_receive_packet_lengths_witness :
    (mkPacket 8 [1, 2, 3]).length = 8 :=
  C10_receive_packet_lengths
    ⟨"/dev/cc1101.0.0", true, some (RXConfig.set_packet_length RXConfig.default 8)⟩
    RXConfig.default [ReadResult.ok [1, 2, 3], ReadResult.errENOMSG]
    (RXConfig.set_packet_length RXConfig.default 8) [mkPacket 8 [1, 2, 3]]
    [Request.readPacket, Request.readPacket] rfl (by decide)
    (mkPacket 8 [1, 2, 3]) (by simp)
